import Mathlib

/-!
# Verification of the BSV middleware HTTP↔protocol transport bridge

Shallow embedding of the correlation (handle) registries, the certificate
listener callback, the payment challenge/verification state machine and the
general-message payload decoder of `bsv_middleware`, together with proofs of
the registry, framing and payment properties stated in the project
specification.

Source files embedded:
- `src/bsv_middleware/django/transport.py` (handle registries, certificate
  listener, payload decoder)
- `src/bsv_middleware/django/payment_middleware.py` (payment state machine)
- `src/bsv_middleware/py_sdk_bridge.py` (nonce creation/verification, the
  internalize-action bridge)
-/

namespace BsvMiddleware

/-- A pending-response handle.  In the source a handle is the dictionary
`{'response': response, 'request': request}` built in
`_handle_well_known_auth` (transport.py:769) and
`_setup_general_message_listener` (transport.py:1232); the registry logic
only stores, returns and discards these dictionaries, so they are
represented by an opaque identifier. -/
abbrev Handle := Nat

/-- Model of `self.open_non_general_handles : Dict[str, List[...]]`
(transport.py:70): the per-key FIFO list of pending non-general handles,
modelled as a partial map from keys to lists. -/
abbrev NonGeneralHandles := String → Option (List Handle)

/-- Model of `self.open_general_handles : Dict[str, ...]` (transport.py:71):
at most one pending general handle per request id. -/
abbrev GeneralHandles := String → Option Handle

/-- The two error returns of `DjangoTransport.send` that signal a missing
correlation handle:
`Exception('No open handles to this peer!')` (transport.py:197) and
`Exception('No response handle for this requestId!')` (transport.py:314). -/
inductive TransportError
  | noOpenHandles
  | noResponseHandle
  deriving DecidableEq, Repr

/-- The initial (empty) registries of `DjangoTransport.__init__`
(transport.py:70-71). -/
def emptyNonGeneral : NonGeneralHandles := fun _ => none

/-- The initial empty general-handle registry (transport.py:71). -/
def emptyGeneral : GeneralHandles := fun _ => none

/-- Registration of a non-general handle, `_handle_well_known_auth`
(transport.py:771-774):
`if request_id in self.open_non_general_handles:` append to the existing
list, `else` create a fresh singleton list. -/
def wellKnownAuthRegister (m : NonGeneralHandles) (requestId : String)
    (h : Handle) : NonGeneralHandles :=
  fun k => if k = requestId then some (((m requestId).getD []) ++ [h]) else m k

/-- Resolution of a non-general handle, `_send_non_general_message`
(transport.py:190-239).  `handles = self.open_non_general_handles.get(
your_nonce, [])`; an empty or absent list returns
`Exception('No open handles to this peer!')`; otherwise the head handle
(`handles[0]`) receives the response (the header and body writes of lines
206-232 act on the popped handle's response object and are represented by
returning that handle), then `handles.pop(0)` removes it and
`del self.open_non_general_handles[your_nonce]` drops the key once the list
is empty (lines 234-237). -/
def sendNonGeneralMessage (m : NonGeneralHandles) (yourNonce : String) :
    Except TransportError (Handle × NonGeneralHandles) :=
  match m yourNonce with
  | none => .error .noOpenHandles
  | some [] => .error .noOpenHandles
  | some (h :: rest) =>
      .ok (h, fun k =>
        if k = yourNonce then (if rest = [] then none else some rest) else m k)

/-- Registration of a general handle, `_setup_general_message_listener`
(transport.py:1226-1233): `self.open_general_handles[request_id] = handle`
is an unconditional dictionary assignment. -/
def setupGeneralMessageListener (m : GeneralHandles) (requestId : String)
    (h : Handle) : GeneralHandles :=
  fun k => if k = requestId then some h else m k

/-- Resolution of a general handle, `_send_general_message`
(transport.py:311-346): `handle = self.open_general_handles.get(request_id)`;
a missing handle returns `Exception('No response handle for this
requestId!')`; otherwise the handle's response is populated and
`del self.open_general_handles[request_id]` removes it (line 344). -/
def sendGeneralMessage (m : GeneralHandles) (requestId : String) :
    Except TransportError (Handle × GeneralHandles) :=
  match m requestId with
  | none => .error .noResponseHandle
  | some h => .ok (h, fun k => if k = requestId then none else m k)

/-- `_cleanup_certificate_handles` (transport.py:1177-1190): for every key
with a non-empty (truthy) list, handles belonging to the identity (decided
by `_handle_belongs_to_identity`, abstracted as the predicate `belongs`)
are filtered out, and `del` removes the key when the filtered list is
empty.  A key holding an empty list would be skipped by `if handles:`. -/
def cleanupCertificateHandles (m : NonGeneralHandles)
    (belongs : Handle → Bool) : NonGeneralHandles :=
  fun k =>
    match m k with
    | none => none
    | some [] => some []
    | some (h :: t) =>
        let hs := (h :: t).filter (fun x => ! belongs x)
        if hs = [] then none else some hs

/-- Register a whole sequence of handles under one key, in order: the
effect of `N` successive `/.well-known/bsv/auth` requests sharing a key
(transport.py:771-774 executed once per request). -/
def registerAll (m : NonGeneralHandles) (k : String) (hs : List Handle) :
    NonGeneralHandles :=
  hs.foldl (fun acc h => wellKnownAuthRegister acc k h) m

/-- Resolve a key repeatedly (at most `n` times), collecting the returned
handles in order: the effect of `n` successive `send` calls for the same
nonce (transport.py:190-239 executed once per call). -/
def drainNonGeneral (m : NonGeneralHandles) (k : String) :
    Nat → List Handle × NonGeneralHandles
  | 0 => ([], m)
  | n + 1 =>
      match sendNonGeneralMessage m k with
      | .error _ => ([], m)
      | .ok (h, m') =>
          let p := drainNonGeneral m' k n
          (h :: p.1, p.2)

/-- States of the non-general registry reachable from the initial empty
registry by the three mutations the source performs on it: registration
(transport.py:771-774), resolution by `send` (transport.py:234-237) and
certificate-failure cleanup (transport.py:1177-1190). -/
inductive ReachableNG : NonGeneralHandles → Prop
  | empty : ReachableNG emptyNonGeneral
  | register {m : NonGeneralHandles} (k : String) (h : Handle) :
      ReachableNG m → ReachableNG (wellKnownAuthRegister m k h)
  | resolve {m m' : NonGeneralHandles} {h : Handle} {k : String} :
      ReachableNG m → sendNonGeneralMessage m k = .ok (h, m') →
      ReachableNG m'
  | cleanup {m : NonGeneralHandles} (belongs : Handle → Bool) :
      ReachableNG m → ReachableNG (cleanupCertificateHandles m belongs)

/- ### Registry lemmas -/

theorem registerAll_lookup (k : String) (hs : List Handle) :
    ∀ m : NonGeneralHandles,
      (registerAll m k hs) k = if hs = [] then m k
        else some (((m k).getD []) ++ hs) := by
  induction hs with
  | nil => intro m; simp [registerAll]
  | cons h t ih =>
      intro m
      have step : registerAll m k (h :: t) =
          registerAll (wellKnownAuthRegister m k h) k t := rfl
      rw [step, ih]
      by_cases ht : t = []
      · subst ht; simp [wellKnownAuthRegister]
      · simp [ht, wellKnownAuthRegister]

theorem drain_exact (k : String) :
    ∀ (l : List Handle) (m : NonGeneralHandles), m k = some l → l ≠ [] →
      (drainNonGeneral m k l.length).1 = l ∧
      (drainNonGeneral m k l.length).2 k = none := by
  intro l
  induction l with
  | nil => intro m _ hne; exact absurd rfl hne
  | cons h t ih =>
      intro m hm _
      have hsend : sendNonGeneralMessage m k =
          .ok (h, fun k' => if k' = k then (if t = [] then none else some t)
            else m k') := by
        simp [sendNonGeneralMessage, hm]
      by_cases ht : t = []
      · subst ht
        constructor
        · simp [drainNonGeneral, hsend]
        · simp [drainNonGeneral, hsend]
      · obtain ⟨ih1, ih2⟩ := ih
          (fun k' => if k' = k then (if t = [] then none else some t) else m k')
          (by simp [ht]) ht
        constructor
        · simp [drainNonGeneral, hsend, ih1]
        · simp [drainNonGeneral, hsend, ih2]

/- ### Claim theorems: handle registry -/

/-- C1: after `N` registrations of non-general handles under the same key
(appends to the per-key list), successive resolutions return the handles in
first-registered-first order, each resolution removes the returned handle,
and one further resolution fails with the no-open-handle error instead of
producing a response. -/
theorem C1_nonGeneral_fifo (m : NonGeneralHandles) (k : String)
    (hs : List Handle) (habs : m k = none) :
    (drainNonGeneral (registerAll m k hs) k hs.length).1 = hs ∧
    sendNonGeneralMessage (drainNonGeneral (registerAll m k hs) k hs.length).2
      k = .error .noOpenHandles := by
  by_cases hne : hs = []
  · subst hne
    refine ⟨rfl, ?_⟩
    simp [registerAll, drainNonGeneral, sendNonGeneralMessage, habs]
  · have hlook : (registerAll m k hs) k = some hs := by
      rw [registerAll_lookup k hs m]
      simp [hne, habs]
    obtain ⟨h1, h2⟩ := drain_exact k hs (registerAll m k hs) hlook hne
    refine ⟨h1, ?_⟩
    simp [sendNonGeneralMessage, h2]

/-- Witness for C1 at a concrete key and three concrete handles. -/
theorem C1_nonGeneral_fifo_witness :
    (drainNonGeneral (registerAll emptyNonGeneral "nonceA" [1, 2, 3])
      "nonceA" 3).1 = [1, 2, 3] ∧
    sendNonGeneralMessage
      (drainNonGeneral (registerAll emptyNonGeneral "nonceA" [1, 2, 3])
        "nonceA" 3).2 "nonceA" = .error .noOpenHandles :=
  C1_nonGeneral_fifo emptyNonGeneral "nonceA" [1, 2, 3] rfl

/-- C2 is false on the code: `_setup_general_message_listener` overwrites
`open_general_handles[request_id]` unconditionally, so a second
registration under the same request id silently replaces the first handle
and no duplicate-correlation error exists.  Concretely, registering handle
`1` and then handle `2` under key `"rid"` leaves the registry mapping
`"rid"` to handle `2`. -/
theorem C2_counterexample :
    (setupGeneralMessageListener
      (setupGeneralMessageListener emptyGeneral "rid" 1) "rid" 2) "rid"
        = some 2 ∧
    (setupGeneralMessageListener
      (setupGeneralMessageListener emptyGeneral "rid" 1) "rid" 2) "rid"
        ≠ some 1 := by
  refine ⟨by simp [setupGeneralMessageListener], ?_⟩
  simp [setupGeneralMessageListener]

/-- C2 (amended): registering a general-message handle under a request-id
key that already has a registered, unresolved handle silently replaces the
existing handle; registration is total and never fails. -/
theorem C2_register_general_replaces (m : GeneralHandles) (k : String)
    (h1 h2 : Handle) :
    (setupGeneralMessageListener (setupGeneralMessageListener m k h1) k h2) k
      = some h2 := by
  simp [setupGeneralMessageListener]

/-- C3: the first resolution for a registered request-id key returns
exactly the registered handle and removes it from the registry, and a
second resolution for the same key fails with the no-open-handle error
(`'No response handle for this requestId!'`) rather than being a silent
no-op. -/
theorem C3_resolve_general_once (m : GeneralHandles) (k : String)
    (h : Handle) :
    ∃ m' : GeneralHandles,
      sendGeneralMessage (setupGeneralMessageListener m k h) k = .ok (h, m') ∧
      m' k = none ∧
      sendGeneralMessage m' k = .error .noResponseHandle := by
  refine ⟨fun k' => if k' = k then none
    else (setupGeneralMessageListener m k h) k', ?_, by simp, ?_⟩
  · simp [sendGeneralMessage, setupGeneralMessageListener]
  · simp [sendGeneralMessage]

/-- C10: every reachable state of the non-general handle registry maps each
present key to a non-empty list: resolution deletes a key when its last
handle is consumed (transport.py:236-237) and cleanup deletes a key when
the filter empties its list (transport.py:1188-1189), so no key is ever
left holding an empty list. -/
theorem C10_no_empty_lists (m : NonGeneralHandles) (hm : ReachableNG m) :
    ∀ (k : String) (l : List Handle), m k = some l → l ≠ [] := by
  induction hm with
  | empty => intro k l hkl; simp [emptyNonGeneral] at hkl
  | register k0 h0 _ ih =>
      intro k l hkl
      by_cases hk : k = k0
      · subst hk
        simp only [wellKnownAuthRegister, if_pos rfl] at hkl
        cases hkl
        simp
      · simp only [wellKnownAuthRegister, if_neg hk] at hkl
        exact ih k l hkl
  | resolve _ heq ih =>
      rename_i m0 m' h0 k0 _
      intro k l hkl
      rcases hmk : m0 k0 with _ | l0
      · simp [sendNonGeneralMessage, hmk] at heq
      · cases l0 with
        | nil => simp [sendNonGeneralMessage, hmk] at heq
        | cons hh tt =>
            simp only [sendNonGeneralMessage, hmk] at heq
            cases heq
            by_cases hk : k = k0
            · subst hk
              simp only [if_pos rfl] at hkl
              by_cases htt : tt = []
              · simp [htt] at hkl
              · simp [htt] at hkl
                cases hkl
                exact htt
            · simp only [if_neg hk] at hkl
              exact ih k l hkl
  | cleanup belongs _ ih =>
      rename_i m0 _
      intro k l hkl
      simp only [cleanupCertificateHandles] at hkl
      rcases hmk : m0 k with _ | l0
      · simp [hmk] at hkl
      · cases l0 with
        | nil => exact absurd hmk (fun h => ih k [] h rfl)
        | cons hh tt =>
            simp only [hmk] at hkl
            by_cases hf : (hh :: tt).filter (fun x => ! belongs x) = []
            · simp [hf] at hkl
            · simp only [hf, if_neg hf] at hkl
              cases hkl
              exact hf

/-- Witness for C10 at the concrete reachable state obtained by one
registration on the empty registry. -/
theorem C10_no_empty_lists_witness : ([7] : List Handle) ≠ [] :=
  C10_no_empty_lists (wellKnownAuthRegister emptyNonGeneral "k1" 7)
    (ReachableNG.register "k1" 7 ReachableNG.empty) "k1" [7]
    (by simp [wellKnownAuthRegister, emptyNonGeneral])

/- ### Certificate listener callback -/

/-- An opaque received certificate (the callback under scrutiny only tests
the list for emptiness before any per-certificate validation). -/
abbrev Certificate := Nat

/-- The certificate-listener bookkeeping mutated by the callback of
`_register_certificate_listener` (transport.py:1654-1767):
`self._certificate_listener_ids : Dict[str, int]` (transport.py:78) and
`self.open_next_handlers : Dict[str, Callable]` (transport.py:79, handlers
abstracted to opaque identifiers).  The handle registries and pending
responses are untouched by every branch of this callback, so they are not
part of this state. -/
structure CertListenerState where
  certificateListenerIds : String → Option Nat
  openNextHandlers : String → Option Nat

/-- Everything observable about one invocation of the certificate callback:
the bookkeeping state afterwards, whether the application's
`on_certificates_received` callback was invoked, whether a queued
continuation (`open_next_handlers`) was run, and the listener id passed to
`peer.stop_listening_for_certificates_received` (if any). -/
structure CertCallbackResult where
  state : CertListenerState
  appCallbackInvoked : Bool
  continuationRun : Bool
  stopListeningCalled : Option Nat

/-- The `certificate_callback` closure registered by
`_register_certificate_listener` (transport.py:1688-1748), for the
registration identity `identityKey`:
1. `if sender_public_key != identity_key: return` — a mismatched delivery
   is ignored (lines 1700-1705);
2. `if not certificates or len(certificates) == 0: return` — an empty
   delivery only logs (lines 1708-1714);
3. otherwise the application callback runs when configured (lines
   1722-1735), a queued continuation for `identityKey` runs and is removed
   (lines 1738-1745), and `_cleanup_certificate_listener`
   (transport.py:1769-1801) pops the listener id for `identityKey` and
   stops listening with it. -/
def certificateCallback (st : CertListenerState) (identityKey : String)
    (sender : String) (certs : List Certificate) (hasAppCallback : Bool) :
    CertCallbackResult :=
  if sender ≠ identityKey then
    { state := st, appCallbackInvoked := false, continuationRun := false,
      stopListeningCalled := none }
  else if certs = [] then
    { state := st, appCallbackInvoked := false, continuationRun := false,
      stopListeningCalled := none }
  else
    let contRun := (st.openNextHandlers identityKey).isSome
    let nextHandlers' : String → Option Nat := fun k =>
      if k = identityKey then none else st.openNextHandlers k
    let popped := st.certificateListenerIds identityKey
    let ids' : String → Option Nat := fun k =>
      if k = identityKey then none else st.certificateListenerIds k
    let st' : CertListenerState :=
      { certificateListenerIds := ids',
        openNextHandlers :=
          if contRun then nextHandlers' else st.openNextHandlers }
    { state := st', appCallbackInvoked := hasAppCallback,
      continuationRun := contRun, stopListeningCalled := popped }

/-- C9: a certificate delivery whose sender differs from the identity key
the listener was registered for is ignored without error: the application
callback is not invoked, no continuation runs, the listener bookkeeping
(including the registration itself) is left exactly as it was, and the
listener is not stopped.  The handle registries and pending responses are
not even inputs of this callback, so they cannot be modified. -/
theorem C9_mismatched_sender_no_effect (st : CertListenerState)
    (identityKey sender : String) (certs : List Certificate)
    (hasAppCallback : Bool) (hne : sender ≠ identityKey) :
    certificateCallback st identityKey sender certs hasAppCallback =
      { state := st, appCallbackInvoked := false, continuationRun := false,
        stopListeningCalled := none } := by
  simp [certificateCallback, hne]

/-- Witness for C9 at a concrete mismatched sender. -/
theorem C9_mismatched_sender_no_effect_witness :
    certificateCallback
      { certificateListenerIds := fun _ => none,
        openNextHandlers := fun _ => none } "03idkey" "02other" [5] true =
      { state :=
          { certificateListenerIds := fun _ => none,
            openNextHandlers := fun _ => none },
        appCallbackInvoked := false, continuationRun := false,
        stopListeningCalled := none } :=
  C9_mismatched_sender_no_effect
    { certificateListenerIds := fun _ => none,
      openNextHandlers := fun _ => none } "03idkey" "02other" [5] true
    (by decide)

/- ### Payment challenge/verification state machine -/

/-- Modelled from the spec: `bsv_middleware/types.py` is not under `src/`
(only its importers are), so the `PaymentInfo` record it defines is taken
from the specification.  §3 "PaymentRecord — satoshis_required,
derivation_prefix, nonce, satoshis_paid, accepted (bool), transaction";
only the fields the middleware constructs are kept
(`PaymentInfo(satoshis_paid=...)` at payment_middleware.py:215 and
`PaymentInfo(satoshis_paid=..., accepted=..., transaction_id=...)` at
payment_middleware.py:294-298).  §8 "If price(request) == 0, the request
proceeds with PaymentRecord{satoshis_paid: 0, accepted: true}" together
with the bare call `PaymentInfo(satoshis_paid=0)` fixes the default of
`accepted` as true, and the unset `transaction_id` defaults to nothing. -/
structure PaymentInfo where
  satoshisPaid : Int
  accepted : Bool := true
  transactionId : Option String := none
  deriving DecidableEq, Repr

/-- An HTTP error/challenge reply of the payment middleware: status code,
the `code` field of the JSON error body, and the extra response headers. -/
structure HttpReply where
  status : Nat
  code : String
  headers : List (String × String) := []
  deriving DecidableEq, Repr

/-- Result of `_process_payment` (payment_middleware.py:172-233): either
the request proceeds to the view with a payment record attached
(`return None` after setting `request.payment`) or an HTTP reply is
returned in its place. -/
inductive PaymentOutcome
  | proceed (payment : PaymentInfo)
  | respond (reply : HttpReply)
  deriving DecidableEq, Repr

/-- The wallet capabilities `PySdkBridge.create_nonce` and
`PySdkBridge.verify_nonce` probe with `hasattr` (py_sdk_bridge.py:97,
py_sdk_bridge.py:164-166), together with the delegated results.  The
standard `MiddlewareWalletAdapter` (wallet_adapter.py) exposes
`get_public_key` but neither `create_nonce` nor `verify_nonce`. -/
structure WalletCaps where
  hasCreateNonce : Bool
  createNonceResult : String
  hasVerifyNonce : Bool
  verifyNonceResult : String → Bool
  hasGetPublicKey : Bool

/-- Wallet capabilities of the standard `MiddlewareWalletAdapter`. -/
def stdWallet : WalletCaps :=
  { hasCreateNonce := false, createNonceResult := "",
    hasVerifyNonce := false, verifyNonceResult := fun _ => false,
    hasGetPublicKey := true }

/-- The entropy consumed by one `create_nonce` call
(py_sdk_bridge.py:105-128): the wallet's public key hex, the millisecond
timestamp `int(time.time() * 1000)` and the eight random bytes
`secrets.token_hex(8)`. -/
structure NonceEntropy where
  pubKey : String
  timestampMs : Nat
  randomHex : String
  deriving DecidableEq, Repr

/-- Concrete stand-in for the external `hashlib.sha256(...).hexdigest()`
primitive consumed by `create_nonce`.  The cryptographic hash is an
external collaborator (Python's standard library); every theorem below
that is stated with this stand-in holds for an arbitrary function in its
place, because only functionality (equal inputs give equal outputs) is
used, never any property of the digest. -/
def sampleSha256hex (s : String) : String :=
  (Nat.toDigits 16
    (s.data.foldl (fun a c => (a * 131 + c.toNat) % (2 ^ 64)) 7)).asString

/-- `PySdkBridge.create_nonce` (py_sdk_bridge.py:87-144): a wallet exposing
`create_nonce` is delegated to; otherwise a wallet exposing
`get_public_key` yields
`sha256(f"{pub_key}:{timestamp}:{random_part}").hexdigest()[:32]`
(lines 121-128); otherwise the fallback is `secrets.token_hex(16)`
(lines 134-138), abstracted as `fallbackRandom`.  No issued-nonce store
exists: the result depends only on the arguments. -/
def createNonce (sha256hex : String → String) (w : WalletCaps)
    (e : NonceEntropy) (fallbackRandom : String) : String :=
  if w.hasCreateNonce then w.createNonceResult
  else if w.hasGetPublicKey then
    (sha256hex
      (e.pubKey ++ ":" ++ toString e.timestampMs ++ ":" ++ e.randomHex)).take 32
  else fallbackRandom

/-- Characters accepted by `all(c in '0123456789abcdef' for c in
nonce.lower())` (py_sdk_bridge.py:170), applied after lowering. -/
def isLowerHexChar (c : Char) : Bool :=
  c.isDigit || ('a' ≤ c && c ≤ 'f')

/-- Hexadecimal digits of either case, as accepted by `int(nonce, 16)`. -/
def isHexDigitChar (c : Char) : Bool :=
  c.isDigit || ('a' ≤ c && c ≤ 'f') || ('A' ≤ c && c ≤ 'F')

/-- ASCII whitespace stripped by `int(str, 16)` before parsing (Python also
strips some further Unicode whitespace, which middleware header values
never contain). -/
def isPySpace (c : Char) : Bool :=
  c = ' ' || c = '\t' || c = '\n' || c = '\r' ||
    c = Char.ofNat 11 || c = Char.ofNat 12

/-- Continuation of the digit grammar of `int(str, 16)`: hex digits with
single underscores allowed between digits only. -/
def pyHexTail : List Char → Bool
  | [] => true
  | ['_'] => false
  | '_' :: c :: rest => isHexDigitChar c && pyHexTail rest
  | c :: rest => isHexDigitChar c && pyHexTail rest

/-- Whole digit part of the grammar of `int(str, 16)`: at least one hex
digit, underscores only between digits. -/
def pyHexBody : List Char → Bool
  | [] => false
  | c :: rest => isHexDigitChar c && pyHexTail rest

/-- Whether `int(s, 16)` succeeds (py_sdk_bridge.py:181): surrounding
whitespace stripped, an optional sign, an optional `0x`/`0X` base marker
(an underscore may follow the marker), then hex digits with underscores
between digits. -/
def pyIntHexOk (s : String) : Bool :=
  let l1 := s.data.dropWhile isPySpace
  let l2 := (l1.reverse.dropWhile isPySpace).reverse
  let l3 := match l2 with
    | '+' :: r => r
    | '-' :: r => r
    | r => r
  match l3 with
  | '0' :: 'x' :: '_' :: r => pyHexBody r
  | '0' :: 'X' :: '_' :: r => pyHexBody r
  | '0' :: 'x' :: r => pyHexBody r
  | '0' :: 'X' :: r => pyHexBody r
  | r => pyHexBody r

/-- Result of `nonce.replace('-', '').replace('_', '')`
(py_sdk_bridge.py:186). -/
def removeDashUnderscore (s : String) : String :=
  ⟨s.data.filter (fun c => c ≠ '-' && c ≠ '_')⟩

/-- Whether `s.isalnum()` holds: non-empty and every character
alphanumeric (ASCII reading; the middleware's header values are ASCII). -/
def pyIsAlnum (s : String) : Bool :=
  !s.data.isEmpty && s.data.all Char.isAlphanum

/-- `PySdkBridge.verify_nonce` (py_sdk_bridge.py:146-198), a check of the
nonce string alone — no issued-nonce store, no request path and no
identity key enter the decision.  Control flow: falsy or non-string nonce
→ False; length below 16 → False; a wallet exposing `verify_nonce` is
delegated to; a wallet exposing `get_public_key` accepts a 32- or
64-character string of (lowered) hex digits (lines 168-175, falling
through on failure); the fallback accepts any string `int(-, 16)` parses,
then any string alphanumeric after removing `-` and `_`, and otherwise
rejects (lines 177-194). -/
def verifyNonce (w : WalletCaps) (nonce : String) : Bool :=
  if nonce = "" then false
  else if nonce.length < 16 then false
  else if w.hasVerifyNonce then w.verifyNonceResult nonce
  else if w.hasGetPublicKey
      && (nonce.length == 32 || nonce.length == 64)
      && (nonce.data.map Char.toLower).all isLowerHexChar then true
  else if pyIntHexOk nonce then true
  else pyIsAlnum (removeDashUnderscore nonce)

/-- The parsed `x-bsv-payment` header,
`PySdkBridge.parse_payment_header` (py_sdk_bridge.py:234-254):
`{derivationPrefix, satoshis, transaction}` with defaults `''`, `0`,
`None` for missing keys. -/
structure BSVPayment where
  derivationPrefix : String
  satoshis : Int
  transaction : Option String
  deriving DecidableEq, Repr

/-- Result shape of the wallet's internalize-action operation (spec §6:
`internalize_action(action) -> {accepted, satoshisPaid, transactionId}`). -/
structure InternalizeResult where
  accepted : Bool
  satoshisPaid : Int
  transactionId : String
  deriving DecidableEq, Repr

/-- `PySdkBridge.internalize_action` (py_sdk_bridge.py:200-232): both the
py-sdk branch and the fallback branch return the literal mock
`{'accepted': True, 'satoshisPaid': payment_data.satoshis,
'transactionId': 'mock_tx_id'}` — the wallet is never consulted ("For
now, return mock result"). -/
def internalizeActionBridge (p : BSVPayment) : InternalizeResult :=
  { accepted := true, satoshisPaid := p.satoshis,
    transactionId := "mock_tx_id" }

/-- Outcome of parsing the `x-bsv-payment` header value:
`json.loads` failure raises `BSVMalformedPaymentException`
(py_sdk_bridge.py:249-254), otherwise a `BSVPayment` is built. -/
inductive HeaderParse
  | malformed
  | parsed (p : BSVPayment)
  deriving DecidableEq, Repr

/-- `BSVPaymentMiddleware._request_payment` (payment_middleware.py:235-258):
the 402 challenge with body code `ERR_PAYMENT_REQUIRED` and the three
payment headers (`PAYMENT_VERSION = '1.0'`, the decimal price via
`str(required_satoshis)`, and the derivation prefix freshly computed by
`create_nonce`).  Header-name constants live in the absent `types.py`;
their wire values are fixed by spec §6. -/
def requestPayment (sha256hex : String → String) (w : WalletCaps)
    (e : NonceEntropy) (fallbackRandom : String)
    (requiredSatoshis : Int) : PaymentOutcome :=
  .respond
    { status := 402, code := "ERR_PAYMENT_REQUIRED",
      headers :=
        [("x-bsv-payment-version", "1.0"),
         ("x-bsv-payment-satoshis-required", toString requiredSatoshis),
         ("x-bsv-payment-derivation-prefix",
           createNonce sha256hex w e fallbackRandom)] }

/-- `BSVPaymentMiddleware._verify_payment` (payment_middleware.py:268-329)
after header parsing, parameterised by the internalize-action operation
(the middleware instantiates it with `internalizeActionBridge`):
a failing `verify_nonce` on the presented derivation prefix raises
`BSVInvalidDerivationPrefixException`, which `__call__`
(payment_middleware.py:149-151) converts to the exception's JSON error
reply — modelled from the spec as code `ERR_INVALID_DERIVATION_PREFIX`
with status 400 (§4.4, §8; `exceptions.py` is not under `src/`).
Otherwise the internalize result's `accepted` flag is copied into the
payment record and the request proceeds (`return None`,
payment_middleware.py:288-314) whatever that flag is. -/
def verifyPayment (w : WalletCaps)
    (internalize : BSVPayment → InternalizeResult) (p : BSVPayment)
    (requestPrice : Int) : PaymentOutcome :=
  if verifyNonce w p.derivationPrefix then
    let result := internalize p
    .proceed { satoshisPaid := requestPrice, accepted := result.accepted,
               transactionId := p.transaction }
  else
    .respond { status := 400, code := "ERR_INVALID_DERIVATION_PREFIX" }

/-- `BSVPaymentMiddleware._process_payment` (payment_middleware.py:172-233):
1. with `REQUIRE_AUTH` set (the default) a request lacking `request.auth`
   (the auth middleware did not run) is answered 500
   `ERR_SERVER_MISCONFIGURED` before anything else — in particular before
   the price is computed (lines 187-193);
2. a price-calculation failure is answered 500 `ERR_PAYMENT_INTERNAL`
   (lines 200-211), modelled as `price = none`;
3. price 0 proceeds with `PaymentInfo(satoshis_paid=0)` (lines 214-216);
4. otherwise a missing `x-bsv-payment` header receives the 402 challenge
   (lines 227-230); a malformed one the `BSVMalformedPaymentException`
   reply, modelled from the spec as `ERR_MALFORMED_PAYMENT` / 400 (§4.4);
   a parsed one is verified (line 233). -/
def processPayment (requireAuth hasAuth : Bool) (price : Option Int)
    (header : Option HeaderParse) (sha256hex : String → String)
    (w : WalletCaps) (e : NonceEntropy) (fallbackRandom : String)
    (internalize : BSVPayment → InternalizeResult) : PaymentOutcome :=
  if requireAuth && !hasAuth then
    .respond { status := 500, code := "ERR_SERVER_MISCONFIGURED" }
  else
    match price with
    | none => .respond { status := 500, code := "ERR_PAYMENT_INTERNAL" }
    | some p =>
        if p = 0 then .proceed { satoshisPaid := 0 }
        else
          match header with
          | none => requestPayment sha256hex w e fallbackRandom p
          | some .malformed =>
              .respond { status := 400, code := "ERR_MALFORMED_PAYMENT" }
          | some (.parsed pd) => verifyPayment w internalize pd p

/- ### Claim theorems: payment state machine -/

/-- C4 is false on the code: the middleware-ordering check of
`_process_payment` (payment_middleware.py:187-193) runs before the price
is calculated, so with `REQUIRE_AUTH` at its default a zero-priced request
whose `request.auth` was never set is answered 500
`ERR_SERVER_MISCONFIGURED` instead of proceeding — a price of zero does
not bypass the auth-must-precede-payment rule. -/
theorem C4_counterexample :
    processPayment true false (some 0) none sampleSha256hex stdWallet
      ⟨"03abc", 1700000000000, "00ff00ff00ff00ff"⟩ "fb"
      internalizeActionBridge
      = .respond { status := 500, code := "ERR_SERVER_MISCONFIGURED" } := rfl

/-- C4 (amended): for every request whose computed price is 0 and which
passes the middleware-ordering check (either `REQUIRE_AUTH` is disabled or
`request.auth` exists — authentication need not have succeeded, an
unauthenticated `identity_key = 'unknown'` auth object suffices), the
payment middleware returns no error response and the request proceeds with
a payment record of `satoshis_paid` 0 and `accepted` true, regardless of
which headers are present. -/
theorem C4_price_zero_proceeds (requireAuth hasAuth : Bool)
    (header : Option HeaderParse) (sha : String → String) (w : WalletCaps)
    (e : NonceEntropy) (fb : String)
    (internalize : BSVPayment → InternalizeResult)
    (hauth : requireAuth = false ∨ hasAuth = true) :
    processPayment requireAuth hasAuth (some 0) header sha w e fb internalize
      = .proceed { satoshisPaid := 0, accepted := true,
                   transactionId := none } := by
  rcases hauth with h | h <;> subst h <;> simp [processPayment]

/-- Witness for the amended C4: price 0 proceeds even though a payment
header is present and parsed. -/
theorem C4_price_zero_proceeds_witness :
    processPayment true true (some 0)
      (some (.parsed ⟨"whatever", 5, some "tx"⟩)) sampleSha256hex stdWallet
      ⟨"03abc", 1700000000000, "00ff00ff00ff00ff"⟩ "fb"
      internalizeActionBridge
      = .proceed { satoshisPaid := 0, accepted := true,
                   transactionId := none } :=
  C4_price_zero_proceeds true true
    (some (.parsed ⟨"whatever", 5, some "tx"⟩)) sampleSha256hex stdWallet
    ⟨"03abc", 1700000000000, "00ff00ff00ff00ff"⟩ "fb"
    internalizeActionBridge (Or.inr rfl)

/-- C5 is false on the code (a bug against the spec and against the
repository's own complete adapter, which answers `ERR_PAYMENT_REJECTED` /
402 in this situation — payment_middleware_complete.py:209-211): first,
`PySdkBridge.internalize_action` never consults the wallet and always
reports `accepted` true; second, even an internalize result with
`accepted` false makes `_verify_payment` copy the flag into the payment
record and return `None` (payment_middleware.py:288-314), so the request
proceeds to the view with `accepted = false` and no 402 is produced.  The
evaluation below runs the payment middleware at the failing input: an
authenticated request at price 100 with a well-formed envelope whose
internalize result is rejected. -/
theorem C5_rejected_payment_proceeds :
    (∀ p : BSVPayment, (internalizeActionBridge p).accepted = true) ∧
    processPayment true true (some 100)
      (some (.parsed ⟨"aaaaaaaaaaaaaaaaaaaaaaaaaaaaaaaa", 100,
        some "beefdata"⟩))
      sampleSha256hex stdWallet
      ⟨"03abc", 1700000000000, "00ff00ff00ff00ff"⟩ "fb"
      (fun _ => { accepted := false, satoshisPaid := 0,
                  transactionId := "txid" })
      = .proceed { satoshisPaid := 100, accepted := false,
                   transactionId := some "beefdata" } :=
  ⟨fun _ => rfl, by decide⟩

/-- C6 is false on the code: `verify_nonce` sees only the prefix string,
never a value computed from the request path and identity key, so any two
distinct well-formed prefixes are both accepted on the same request — at
most one of them can equal the per-request value the claim demands, hence
an unequal prefix proceeds (to a 200 via the always-accepting bridge)
instead of being rejected with `ERR_INVALID_DERIVATION_PREFIX` / 400. -/
theorem C6_counterexample :
    processPayment true true (some 100)
      (some (.parsed ⟨"aaaaaaaaaaaaaaaaaaaaaaaaaaaaaaaa", 100, some "tx1"⟩))
      sampleSha256hex stdWallet
      ⟨"03abc", 1700000000000, "00ff00ff00ff00ff"⟩ "fb"
      internalizeActionBridge
      = .proceed { satoshisPaid := 100, accepted := true,
                   transactionId := some "tx1" } ∧
    processPayment true true (some 100)
      (some (.parsed ⟨"bbbbbbbbbbbbbbbbbbbbbbbbbbbbbbbb", 100, some "tx1"⟩))
      sampleSha256hex stdWallet
      ⟨"03abc", 1700000000000, "00ff00ff00ff00ff"⟩ "fb"
      internalizeActionBridge
      = .proceed { satoshisPaid := 100, accepted := true,
                   transactionId := some "tx1" } ∧
    "aaaaaaaaaaaaaaaaaaaaaaaaaaaaaaaa" ≠ "bbbbbbbbbbbbbbbbbbbbbbbbbbbbbbbb"
    := ⟨by decide, by decide, by decide⟩

/-- C6 (amended): the payment middleware rejects a presented envelope with
code `ERR_INVALID_DERIVATION_PREFIX` and HTTP 400 exactly when the
presented `derivationPrefix` fails `verify_nonce`'s format check — the
check is of the prefix string alone (its length and character set), and no
value computed for the request's path and the caller's identity key is
compared. -/
theorem C6_prefix_check_is_format_only (pd : BSVPayment) (price : Int)
    (sha : String → String) (e : NonceEntropy) (fb : String)
    (hp : price ≠ 0) :
    (processPayment true true (some price) (some (.parsed pd)) sha stdWallet
        e fb internalizeActionBridge
      = .respond { status := 400, code := "ERR_INVALID_DERIVATION_PREFIX" })
      ↔ verifyNonce stdWallet pd.derivationPrefix = false := by
  cases hv : verifyNonce stdWallet pd.derivationPrefix <;>
    simp [processPayment, verifyPayment, hp, hv]

/-- Witness for the amended C6 at a concrete malformed prefix. -/
theorem C6_prefix_check_is_format_only_witness :
    (100 : Int) ≠ 0 ∧
    ((processPayment true true (some 100)
        (some (.parsed ⟨"!!!not-a-nonce!!!", 5, none⟩)) sampleSha256hex
        stdWallet ⟨"03abc", 1700000000000, "00ff00ff00ff00ff"⟩ "fb"
        internalizeActionBridge
      = .respond { status := 400, code := "ERR_INVALID_DERIVATION_PREFIX" })
      ↔ verifyNonce stdWallet "!!!not-a-nonce!!!" = false) :=
  ⟨by decide,
    C6_prefix_check_is_format_only ⟨"!!!not-a-nonce!!!", 5, none⟩ 100
      sampleSha256hex ⟨"03abc", 1700000000000, "00ff00ff00ff00ff"⟩ "fb"
      (by decide)⟩

/-- C8 is false in its distinctness part: `create_nonce` keeps no record
of issued nonces and is a pure function of the wallet key, the millisecond
timestamp and the eight random bytes it draws (py_sdk_bridge.py:87-144),
so whenever those inputs repeat — two challenges in the same millisecond
drawing the same random bytes — the freshly issued nonce is a member of
the previously issued ones rather than distinct from all of them.  The
statement below exhibits this at one concrete entropy value; it holds for
an arbitrary hash function in place of the stand-in, since only equal
inputs giving equal outputs is used. -/
theorem C8_counterexample :
    createNonce sampleSha256hex stdWallet
        ⟨"03abc", 1700000000000, "00ff00ff00ff00ff"⟩ "fb"
      ∈ [createNonce sampleSha256hex stdWallet
          ⟨"03abc", 1700000000000, "00ff00ff00ff00ff"⟩ "fb"] :=
  List.mem_singleton.mpr rfl

/-- C8 (amended): every request whose computed price is nonzero (e.g. 100)
and which carries no `x-bsv-payment` header is answered 402 with
`x-bsv-payment-satoshis-required` equal to the decimal rendering of the
price, a payment-version header, and `x-bsv-payment-derivation-prefix`
carrying the freshly computed nonce; the nonce is a pure function of the
wallet key, timestamp and random part, so distinctness from previously
issued nonces holds only as far as those entropy inputs do not repeat —
no issued-nonce store enforces it. -/
theorem C8_challenge_shape (requireAuth hasAuth : Bool) (price : Int)
    (sha : String → String) (w : WalletCaps) (e : NonceEntropy) (fb : String)
    (internalize : BSVPayment → InternalizeResult)
    (hp : price ≠ 0) (hauth : requireAuth = false ∨ hasAuth = true) :
    processPayment requireAuth hasAuth (some price) none sha w e fb
        internalize
      = .respond
          { status := 402, code := "ERR_PAYMENT_REQUIRED",
            headers :=
              [("x-bsv-payment-version", "1.0"),
               ("x-bsv-payment-satoshis-required", toString price),
               ("x-bsv-payment-derivation-prefix",
                 createNonce sha w e fb)] } := by
  rcases hauth with h | h <;> subst h <;>
    simp [processPayment, requestPayment, hp]

/-- Witness for the amended C8 at price 100, with the decimal rendering
spelled out as the string "100". -/
theorem C8_challenge_shape_witness :
    (100 : Int) ≠ 0 ∧
    processPayment false false (some 100) none sampleSha256hex stdWallet
      ⟨"03abc", 1700000000000, "00ff00ff00ff00ff"⟩ "fb"
      internalizeActionBridge
      = .respond
          { status := 402, code := "ERR_PAYMENT_REQUIRED",
            headers :=
              [("x-bsv-payment-version", "1.0"),
               ("x-bsv-payment-satoshis-required", "100"),
               ("x-bsv-payment-derivation-prefix",
                 createNonce sampleSha256hex stdWallet
                   ⟨"03abc", 1700000000000, "00ff00ff00ff00ff"⟩ "fb")] } :=
  ⟨by decide,
    C8_challenge_shape false false 100 sampleSha256hex stdWallet
      ⟨"03abc", 1700000000000, "00ff00ff00ff00ff"⟩ "fb"
      internalizeActionBridge (by decide) (Or.inl rfl)⟩

/- ### General-message payload codec -/

/-- The payload decoder for general messages,
`_parse_general_message_payload` (transport.py:390-407), applied by
`_send_general_message` to the bytes following the 32-byte request id
(transport.py:321).  The body is an admitted placeholder — "Simple
implementation - in real Express, this uses Utils.Reader.  For now, return
default values" — that ignores the framing entirely and yields status 200,
no headers and the raw remaining bytes as body. -/
def parseGeneralMessagePayload (payload : List Nat) :
    Nat × List (String × String) × List Nat :=
  (200, [], payload)

/-- Modelled from the spec: "Decoding performs the exact inverse" of the
framing, but no faithful decoder exists in the source (only the
placeholder above), so the reference varint reader follows the spec's
Bitcoin-style `Utils.Reader` format: a first byte below 253 is the value;
253, 254 and 255 announce 2-, 4- and 8-byte little-endian values.  Missing
bytes are a `MalformedMessage` failure (`none`). -/
def readVarint : List Nat → Option (Nat × List Nat)
  | [] => none
  | b :: rest =>
      if b < 253 then some (b, rest)
      else if b = 253 then
        match rest with
        | b0 :: b1 :: r => some (b0 + 256 * b1, r)
        | _ => none
      else if b = 254 then
        match rest with
        | b0 :: b1 :: b2 :: b3 :: r =>
            some (b0 + 256 * (b1 + 256 * (b2 + 256 * b3)), r)
        | _ => none
      else
        match rest with
        | b0 :: b1 :: b2 :: b3 :: b4 :: b5 :: b6 :: b7 :: r =>
            some (b0 + 256 * (b1 + 256 * (b2 + 256 * (b3 + 256 *
              (b4 + 256 * (b5 + 256 * (b6 + 256 * b7)))))), r)
        | _ => none

/-- Read exactly `n` bytes, failing (`MalformedMessage`) when fewer
remain. -/
def readBytes (n : Nat) (l : List Nat) : Option (List Nat × List Nat) :=
  if n ≤ l.length then some (l.take n, l.drop n) else none

/-- Bytes to the string they spell (ASCII reading). -/
def bytesToString (bs : List Nat) : String :=
  ⟨bs.map Char.ofNat⟩

/-- Modelled from the spec: the `{keyLen, key, valLen, val}*` header block
of the general-message framing, read `count` times. -/
def readHeaderBlock : Nat → List Nat →
    Option (List (String × String) × List Nat)
  | 0, l => some ([], l)
  | n + 1, l => do
      let (klen, l) ← readVarint l
      let (k, l) ← readBytes klen l
      let (vlen, l) ← readVarint l
      let (v, l) ← readBytes vlen l
      let (hs, l) ← readHeaderBlock n l
      some ((bytesToString k, bytesToString v) :: hs, l)

/-- Modelled from the spec: the exact inverse of the general-message
payload framing after the 32-byte request id —
`statusCode (varint) || headerCount (varint) || {keyLen,key,valLen,val}* ||
bodyLen (varint, -1 sentinel for absent) || body`.  The -1 sentinel is the
unsigned reading 0xFFFFFFFFFFFFFFFF of the 8-byte varint; `none` as the
overall result is the `MalformedMessage` error, raised on any length
mismatch, including trailing bytes. -/
def decodeGeneralPayload (l : List Nat) :
    Option (Nat × List (String × String) × Option (List Nat)) := do
  let (status, l) ← readVarint l
  let (hcount, l) ← readVarint l
  let (hs, l) ← readHeaderBlock hcount l
  let (blen, l) ← readVarint l
  if blen = 0xFFFFFFFFFFFFFFFF then
    if l = [] then some (status, hs, none) else none
  else
    let (body, l) ← readBytes blen l
    if l = [] then some (status, hs, some body) else none

/-- C7 is false on the code (a placeholder the source itself flags with
"For now, return default values"): the byte list below is the well-framed
encoding of status 404, zero headers and body `[1, 2, 3]`
(`0xfd 0x94 0x01` is the varint for 404, then header count 0, body length
3, body), and the specification decoder recovers exactly that — but
`_parse_general_message_payload` returns status 200, no headers and the
raw bytes, so the decoded status code differs from the encoded one, and no
length mismatch can ever fail with `MalformedMessage` because the decoder
inspects nothing. -/
theorem C7_decoder_is_placeholder :
    decodeGeneralPayload [253, 148, 1, 0, 3, 1, 2, 3]
      = some (404, [], some [1, 2, 3]) ∧
    parseGeneralMessagePayload [253, 148, 1, 0, 3, 1, 2, 3]
      = (200, [], [253, 148, 1, 0, 3, 1, 2, 3]) ∧
    (200 : Nat) ≠ 404 := by
  refine ⟨by decide, rfl, by decide⟩

end BsvMiddleware
